import Mathlib

/-!
Verification development for the node-locked licensing service
(license server `server/server.py` + `server/db.py` + `server/certificate.py`,
client enforcer `set/container_validator.py` + `set/installer.py`).

The Python code is shallowly embedded:

* JSON values (the certificate document, canonical `json.dumps(..., sort_keys=True)`
  serializations, HMAC/signature preimages) are modelled by the inductive `SymData`.
  Lists of entries are encoded with the `consD` constructor so that the whole type is
  a single non-nested inductive with derivable decidable equality.
* Cryptographic primitives (SHA-256, SHA3-512, HMAC-SHA512, RSA-PSS-SHA512,
  AES-256-GCM, base64) are external library calls in the source; they are modelled
  symbolically as injective term constructors (`SymData.prim`), the standard
  Dolev-Yao style model.  A key pair is modelled by a single `Nat` identifier that
  plays both roles (`rsaPssVerify pk m s` succeeds exactly when `s` was produced by
  `rsaPssSign` with the same key identifier over the same bytes).
* Timestamps are UTC seconds since the epoch (`Int`); `timedelta(days = d)` is
  `86400 * d` seconds and `timedelta.days` is floor division by 86400
  (`Int.fdiv`), matching Python's floor semantics.
* Randomness (uuid4, `secrets.token_bytes`) is threaded explicitly through an `Env`
  record holding a fresh-name counter and the wall clock.
-/

namespace LicensePOC

/-- Symbolic JSON / byte-string values.  `consD`/`nilD` encode lists of
(key, value) entries; `obj` wraps such a list as a JSON object with the keys in
the order they are emitted, `arr` wraps a list (keys ignored, set to `""`) as a
JSON array, and `prim tag args` is an opaque value produced by an external
cryptographic primitive applied to `args`. -/
inductive SymData where
  | str (s : String)
  | int (n : Int)
  | boolD (b : Bool)
  | null
  | nilD
  | consD (key : String) (val : SymData) (tl : SymData)
  | arr (elems : SymData)
  | obj (entries : SymData)
  | prim (tag : String) (args : SymData)
deriving DecidableEq, Repr

/-- Convert a Lean list of JSON values to a `SymData` list (array elements). -/
def listD : List SymData → SymData
  | [] => .nilD
  | x :: xs => .consD "" x (listD xs)

/-- Convert a Lean association list to a `SymData` entry list (object fields). -/
def entriesD : List (String × SymData) → SymData
  | [] => .nilD
  | (k, v) :: xs => .consD k v (entriesD xs)

/-- Lexicographic comparison of character lists by codepoint (the keys are
ASCII, so this is exactly the byte order used by `sort_keys=True`). -/
def charsLe : List Char → List Char → Bool
  | [], _ => true
  | _ :: _, [] => false
  | a :: as, b :: bs =>
      if a.toNat < b.toNat then true
      else if b.toNat < a.toNat then false
      else charsLe as bs

/-- Lexicographic key order for object entries. -/
def keyLe (a b : String) : Bool := charsLe a.toList b.toList

/-- Insertion sort of object entries by key, modelling `json.dumps(..., sort_keys=True)`:
keys of every serialized object are emitted in lexicographic order. -/
def insertEntry (e : String × SymData) : List (String × SymData) → List (String × SymData)
  | [] => [e]
  | x :: xs => if keyLe e.1 x.1 then e :: x :: xs else x :: insertEntry e xs

/-- Sort an association list by key (see `insertEntry`). -/
def sortEntries : List (String × SymData) → List (String × SymData)
  | [] => []
  | x :: xs => insertEntry x (sortEntries xs)

/-- Build a canonical JSON object: entries sorted by key. -/
def objD (es : List (String × SymData)) : SymData :=
  .obj (entriesD (sortEntries es))

/-- Association-list update with overwrite, mirroring Python dict assignment
`d[k] = v` (an existing binding keeps its position, a new one is appended). -/
def dictSet {α : Type} (k : String) (v : α) : List (String × α) → List (String × α)
  | [] => [(k, v)]
  | (k', v') :: xs => if k' = k then (k, v) :: xs else (k', v') :: dictSet k v xs

/-- Association-list lookup, mirroring Python `d.get(k)`. -/
def dictGet {α : Type} (xs : List (String × α)) (k : String) : Option α :=
  (xs.find? (fun p => p.1 = k)).map (·.2)

/-- Python truthiness of an optional string: `None` and `""` are falsy. -/
def pyOrStr (x : Option String) (dflt : String) : String :=
  match x with
  | none => dflt
  | some s => if s = "" then dflt else s

/-- Python `x or dflt` for an optional integer: `None` and `0` are falsy. -/
def pyOrInt (x : Option Int) (dflt : Int) : Int :=
  match x with
  | none => dflt
  | some n => if n = 0 then dflt else n

/-- Python `x or dflt` for an optional list: `None` and `[]` are falsy. -/
def pyOrList {α : Type} (x : Option (List α)) (dflt : List α) : List α :=
  match x with
  | none => dflt
  | some l => if l.isEmpty then dflt else l

/-! ## Symbolic cryptographic primitives (external library calls) -/

/-- `hashlib.sha256(b).digest()`. -/
def sha256D (b : SymData) : SymData := .prim "sha256" (listD [b])

/-- `hashlib.sha3_512(b).hexdigest()`. -/
def sha3_512D (b : SymData) : SymData := .prim "sha3-512" (listD [b])

/-- `hmac.new(key, msg, hashlib.sha512).hexdigest()`. -/
def hmacSha512D (key msg : SymData) : SymData := .prim "hmac-sha512" (listD [key, msg])

/-- `base64.b64encode(b).decode()`. -/
def b64encodeD (b : SymData) : SymData := .prim "base64" (listD [b])

/-- `base64.b64decode(s)`: inverts `b64encodeD`, fails on anything else. -/
def b64decodeD : SymData → Option SymData
  | .prim "base64" (.consD _ b .nilD) => some b
  | _ => none

/-- `private_key.sign(msg, PSS(MGF1(SHA512), MAX_LENGTH), SHA512)`.  The key pair
is modelled by the `Nat` identifier `sk`. -/
def rsaPssSign (sk : Nat) (msg : SymData) : SymData :=
  .prim "rsa-pss-sha512" (listD [.int (Int.ofNat sk), msg])

/-- `public_key.verify(sig, msg, PSS(...), SHA512)`: succeeds exactly when the
signature was produced with the matching key over the same bytes. -/
def rsaPssVerify (pk : Nat) (msg sig : SymData) : Bool :=
  sig = rsaPssSign pk msg

/-- `AESGCM(key).encrypt(nonce, data, None)`: ciphertext plus authentication tag,
opaque outside of decryption with the same key and nonce. -/
def aesgcmEncrypt (key nonce data : SymData) : SymData :=
  .prim "aes-256-gcm" (listD [key, nonce, data])

/-- `AESGCM(key).decrypt(nonce, ct, None)`: returns the plaintext when `ct` was
produced by `aesgcmEncrypt` under the same key and nonce (the GCM tag check),
and fails (`InvalidTag`) otherwise. -/
def aesgcmDecrypt (key nonce ct : SymData) : Option SymData :=
  match ct with
  | .prim "aes-256-gcm" (.consD _ k (.consD _ n (.consD _ d .nilD))) =>
      if k = key ∧ n = nonce then some d else none
  | _ => none

/-- `datetime.isoformat()` of a UTC timestamp: an injective string rendering,
kept symbolic. -/
def isoD (t : Int) : SymData := .prim "isoformat" (listD [.int t])

/-- Fresh 64-byte HMAC key, `secrets.token_bytes(64)` drawn at fresh index `n`. -/
def tokenBytes64 (n : Nat) : SymData := .prim "token-bytes-64" (listD [.int (Int.ofNat n)])

/-- Fresh 12-byte AES-GCM nonce, `secrets.token_bytes(12)` drawn at fresh index `n`. -/
def tokenBytes12 (n : Nat) : SymData := .prim "token-bytes-12" (listD [.int (Int.ofNat n)])

/-- PEM rendering of the public key with identifier `pk`. -/
def pemD (pk : Nat) : SymData := .prim "pem-public-key" (listD [.int (Int.ofNat pk)])

/-! ## Tier tables (`AdvancedCertificateGenerator` class constants) -/

/-- One row of `TIER_LIMITS`. -/
structure TierLimit where
  max_machines : Int
  valid_days : Int
  concurrent_sessions : Int
  api_rate_limit : Int
deriving DecidableEq, Repr

/-- `AdvancedCertificateGenerator.TIER_LIMITS`. -/
def TIER_LIMITS : List (String × TierLimit) :=
  [ ("trial",      ⟨1,   14,  1,  100⟩),
    ("basic",      ⟨3,   365, 5,  1000⟩),
    ("pro",        ⟨10,  365, 20, 5000⟩),
    ("enterprise", ⟨100, 365, -1, -1⟩) ]

/-- `TIER_LIMITS.get(tier, TIER_LIMITS["basic"])`. -/
def tierLimitsGet (tier : String) : TierLimit :=
  (dictGet TIER_LIMITS tier).getD ⟨3, 365, 5, 1000⟩

/-- `AdvancedCertificateGenerator.TIER_SERVICES`. -/
def TIER_SERVICES : List (String × List String) :=
  [ ("trial",      ["frontend"]),
    ("basic",      ["frontend", "backend"]),
    ("pro",        ["frontend", "backend", "analytics"]),
    ("enterprise", ["frontend", "backend", "analytics", "monitoring"]) ]

/-- One row of `SERVICE_DEFINITIONS`. -/
structure ServiceDef where
  image : String
  default_tag : String
  container_port : Int
  host_port : Int
  required : Bool
  description : String
deriving DecidableEq, Repr

/-- `AdvancedCertificateGenerator.SERVICE_DEFINITIONS`. -/
def SERVICE_DEFINITIONS : List (String × ServiceDef) :=
  [ ("frontend",   ⟨"nainovate/nia-frontend", "v3.0", 3005, 3005, true, "AI Dashboard Frontend"⟩),
    ("backend",    ⟨"nainovate/ai-dashboard-backend", "license", 8000, 8000, false, "AI Dashboard Backend API"⟩),
    ("analytics",  ⟨"nainovate/ai-dashboard-analytics", "latest", 9000, 9000, false, "Analytics Engine"⟩),
    ("monitoring", ⟨"nainovate/ai-dashboard-monitoring", "latest", 9090, 9090, false, "Monitoring Service"⟩) ]

/-- `AdvancedCertificateGenerator.REGISTRY_CONFIG`: (registry_url, registry_username). -/
def REGISTRY_CONFIG : String × String := ("docker.io", "nainovate")

/-! ## Certificate document (the dict built by `generate_certificate`) -/

/-- The `customer` block. -/
structure CustomerBlock where
  customer_id : String
  customer_name : String
  product_key : String
deriving DecidableEq, Repr

/-- The `machine` block. -/
structure MachineBlock where
  machine_id : String
  machine_fingerprint : String
  hostname : String
  fingerprint_algorithm : String
deriving DecidableEq, Repr

/-- The `validity` block; timestamps are UTC seconds. -/
structure ValidityBlock where
  issued_at : Int
  valid_until : Int
  valid_days : Int
  grace_period_days : Int
  timezone : String
deriving DecidableEq, Repr

/-- The `limits` block. -/
structure LimitsBlock where
  max_machines : Int
  current_machine_number : Int
  concurrent_sessions : Int
  api_rate_limit_per_hour : Int
deriving DecidableEq, Repr

/-- One entry of the top-level `services` permission map
(built by `_build_service_permissions`). -/
structure ServicePerm where
  enabled : Bool
  tier_required : String
deriving DecidableEq, Repr

/-- One entry of the `docker.services` map (built by `_build_docker_config`). -/
structure DockerService where
  enabled : Bool
  image : String
  tag : String
  container_port : Int
  host_port : Int
  required : Bool
  description : String
  reason_disabled : Option String
deriving DecidableEq, Repr

/-- The `docker` block. -/
structure DockerConfig where
  registry_url : String
  registry_username : String
  services : List (String × DockerService)
  compose_version : String
  network_name : String
deriving DecidableEq, Repr

/-- The `features` map built by `_build_feature_flags`. -/
structure FeatureFlags where
  offline_mode_enabled : Bool
  max_offline_days : Int
  auto_updates_enabled : Bool
  auto_updates_channel : String
  priority_support_enabled : Bool
  sla_hours : Option Int
  custom_branding_enabled : Bool
  api_access_enabled : Bool
  api_access_rate_limit : Int
  export_data_enabled : Bool
  export_data_formats : List String
deriving DecidableEq, Repr

/-- The `upgrade_chain` block. -/
structure UpgradeChain where
  parent_certificate_id : Option String
  upgrade_count : Int
  is_upgrade : Bool
  can_upgrade : Bool
deriving DecidableEq, Repr

/-- The `security` block.  The three algorithm names and the binding method are
present from construction on; `fingerprint_hash`, `hmac` and `hmac_key` are
added by `_add_cryptographic_layers` (absent keys are `none`, matching a
missing dict key rather than a JSON null). -/
structure SecurityBlock where
  encryption_algorithm : String
  signature_algorithm : String
  integrity_algorithm : String
  binding_method : String
  fingerprint_hash : Option SymData
  hmac : Option SymData
  hmac_key : Option SymData
deriving DecidableEq, Repr

/-- The whole certificate document.  `signature`/`signature_timestamp` are the
keys attached last by `_add_cryptographic_layers` (absent before that). -/
structure Certificate where
  certificate_id : String
  certificate_version : String
  certificate_type : String
  tier : String
  customer : CustomerBlock
  machine : MachineBlock
  validity : ValidityBlock
  limits : LimitsBlock
  services : List (String × ServicePerm)
  docker : DockerConfig
  features : FeatureFlags
  upgrade_chain : UpgradeChain
  security : SecurityBlock
  metadata : List (String × SymData)
  signature : Option SymData
  signature_timestamp : Option Int
deriving DecidableEq, Repr

/-! ## Canonical JSON serialization of the certificate

`json.dumps(d, sort_keys=True)` emits each object with its keys in
lexicographic order; the serializers below therefore sort every entry list with
`sortEntries`.  `None` values serialize as JSON `null`; keys that were never
assigned are simply absent. -/

/-- Serialize an optional string (`None` → JSON null). -/
def optStrD (x : Option String) : SymData :=
  match x with
  | none => .null
  | some s => .str s

/-- Serialize an optional integer (`None` → JSON null). -/
def optIntD (x : Option Int) : SymData :=
  match x with
  | none => .null
  | some n => .int n

/-- Serialize a `services` permission entry. -/
def servicePermToJson (p : ServicePerm) : SymData :=
  objD [("enabled", .boolD p.enabled), ("tier_required", .str p.tier_required)]

/-- Serialize a `docker.services` entry; `reason_disabled` is a key only present
on disabled services. -/
def dockerServiceToJson (s : DockerService) : SymData :=
  objD ([("enabled", .boolD s.enabled),
         ("image", .str s.image),
         ("tag", .str s.tag),
         ("container_port", .int s.container_port),
         ("host_port", .int s.host_port),
         ("required", .boolD s.required),
         ("description", .str s.description)] ++
        (match s.reason_disabled with
         | none => []
         | some r => [("reason_disabled", .str r)]))

/-- Serialize the `docker` block. -/
def dockerConfigToJson (d : DockerConfig) : SymData :=
  objD [("registry", objD [("url", .str d.registry_url), ("username", .str d.registry_username)]),
        ("services", objD (d.services.map (fun p => (p.1, dockerServiceToJson p.2)))),
        ("compose_version", .str d.compose_version),
        ("network_name", .str d.network_name)]

/-- Serialize the `features` block. -/
def featuresToJson (f : FeatureFlags) : SymData :=
  objD [("offline_mode", objD [("enabled", .boolD f.offline_mode_enabled),
                               ("max_offline_days", .int f.max_offline_days)]),
        ("auto_updates", objD [("enabled", .boolD f.auto_updates_enabled),
                               ("channel", .str f.auto_updates_channel)]),
        ("priority_support", objD [("enabled", .boolD f.priority_support_enabled),
                                   ("sla_hours", optIntD f.sla_hours)]),
        ("custom_branding", objD [("enabled", .boolD f.custom_branding_enabled)]),
        ("api_access", objD [("enabled", .boolD f.api_access_enabled),
                             ("rate_limit", .int f.api_access_rate_limit)]),
        ("export_data", objD [("enabled", .boolD f.export_data_enabled),
                              ("formats", listD (f.export_data_formats.map SymData.str))])]

/-- Serialize the `security` block (only the keys that have been assigned). -/
def securityToJson (s : SecurityBlock) : SymData :=
  objD ([("encryption_algorithm", .str s.encryption_algorithm),
         ("signature_algorithm", .str s.signature_algorithm),
         ("integrity_algorithm", .str s.integrity_algorithm),
         ("binding_method", .str s.binding_method)] ++
        (match s.fingerprint_hash with | none => [] | some h => [("fingerprint_hash", h)]) ++
        (match s.hmac with | none => [] | some h => [("hmac", h)]) ++
        (match s.hmac_key with | none => [] | some k => [("hmac_key", k)]))

/-- Top-level certificate entries, without `security`, `signature` and
`signature_timestamp` (those are appended separately depending on presence). -/
def certBodyEntries (c : Certificate) : List (String × SymData) :=
  [("certificate_id", .str c.certificate_id),
   ("certificate_version", .str c.certificate_version),
   ("certificate_type", .str c.certificate_type),
   ("tier", .str c.tier),
   ("customer", objD [("customer_id", .str c.customer.customer_id),
                      ("customer_name", .str c.customer.customer_name),
                      ("product_key", .str c.customer.product_key)]),
   ("machine", objD [("machine_id", .str c.machine.machine_id),
                     ("machine_fingerprint", .str c.machine.machine_fingerprint),
                     ("hostname", .str c.machine.hostname),
                     ("fingerprint_algorithm", .str c.machine.fingerprint_algorithm)]),
   ("validity", objD [("issued_at", isoD c.validity.issued_at),
                      ("valid_until", isoD c.validity.valid_until),
                      ("valid_days", .int c.validity.valid_days),
                      ("grace_period_days", .int c.validity.grace_period_days),
                      ("timezone", .str c.validity.timezone)]),
   ("limits", objD [("max_machines", .int c.limits.max_machines),
                    ("current_machine_number", .int c.limits.current_machine_number),
                    ("concurrent_sessions", .int c.limits.concurrent_sessions),
                    ("api_rate_limit_per_hour", .int c.limits.api_rate_limit_per_hour)]),
   ("services", objD (c.services.map (fun p => (p.1, servicePermToJson p.2)))),
   ("docker", dockerConfigToJson c.docker),
   ("features", featuresToJson c.features),
   ("upgrade_chain", objD [("parent_certificate_id", optStrD c.upgrade_chain.parent_certificate_id),
                           ("upgrade_count", .int c.upgrade_chain.upgrade_count),
                           ("is_upgrade", .boolD c.upgrade_chain.is_upgrade),
                           ("can_upgrade", .boolD c.upgrade_chain.can_upgrade)]),
   ("metadata", objD c.metadata)]

/-- `json.dumps(cert, sort_keys=True)` of the full certificate dict
(`security` included; `signature`/`signature_timestamp` included when present). -/
def certJson (c : Certificate) : SymData :=
  objD (certBodyEntries c ++
        [("security", securityToJson c.security)] ++
        (match c.signature with | none => [] | some s => [("signature", s)]) ++
        (match c.signature_timestamp with | none => [] | some t => [("signature_timestamp", isoD t)]))

/-- `json.dumps(cert_copy, sort_keys=True)` after `cert_copy.pop("security")`:
the whole `security` key removed, every other present key kept. -/
def certJsonNoSecurity (c : Certificate) : SymData :=
  objD (certBodyEntries c ++
        (match c.signature with | none => [] | some s => [("signature", s)]) ++
        (match c.signature_timestamp with | none => [] | some t => [("signature_timestamp", isoD t)]))

/-- Drop the `signature` and `signature_timestamp` keys (the two
`cert_copy.pop(...)` calls shared by the signer and the verifier). -/
def popSignatureFields (c : Certificate) : Certificate :=
  { c with signature := none, signature_timestamp := none }

/-! ## Issuer environment: wall clock, fresh-name supply, signing key, Docker PAT -/

/-- Process state of the Issuer: current UTC time in seconds, a counter feeding
every random draw (uuid4, `secrets.token_bytes`), the RSA key-pair identifier,
and the configured Docker personal access token (`""` when unset). -/
structure Env where
  now : Int
  fresh : Nat
  sk : Nat
  docker_pat : String
deriving DecidableEq, Repr

/-! ## `AdvancedCertificateGenerator` methods -/

/-- `_build_docker_config`: first an enabled entry for every allowed service
that has a definition (tags overridden by `custom_image_tags`), then a disabled
entry for every remaining defined service. -/
def build_docker_config (tier : String) (allowed_services : List String)
    (custom_image_tags : Option (List (String × String))) : DockerConfig :=
  let custom := custom_image_tags.getD []
  let enabledPart := allowed_services.foldl (fun acc name =>
    match dictGet SERVICE_DEFINITIONS name with
    | none => acc
    | some d => dictSet name
        { enabled := true, image := d.image,
          tag := (dictGet custom name).getD d.default_tag,
          container_port := d.container_port, host_port := d.host_port,
          required := d.required, description := d.description,
          reason_disabled := none } acc) ([] : List (String × DockerService))
  let services := SERVICE_DEFINITIONS.foldl (fun acc p =>
    if (dictGet acc p.1).isSome then acc
    else acc ++ [(p.1,
      { enabled := false, image := p.2.image, tag := p.2.default_tag,
        container_port := p.2.container_port, host_port := p.2.host_port,
        required := false, description := p.2.description,
        reason_disabled := some ("Not included in " ++ tier ++ " tier") })]) enabledPart
  { registry_url := REGISTRY_CONFIG.1, registry_username := REGISTRY_CONFIG.2,
    services := services, compose_version := "3.8", network_name := "license-network" }

/-- The fixed list `all_possible_services` of `_build_service_permissions`. -/
def all_possible_services : List String :=
  ["dashboard", "analytics", "reports", "api",
   "integrations", "custom_modules", "white_label", "sso"]

/-- The `tier_access` table of `_build_service_permissions`
(`.get(tier, ["dashboard"])`). -/
def tier_access (tier : String) : List String :=
  (dictGet [("trial", ["dashboard"]),
            ("basic", ["dashboard", "analytics", "reports"]),
            ("pro", ["dashboard", "analytics", "reports", "api", "integrations"]),
            ("enterprise", all_possible_services)] tier).getD ["dashboard"]

/-- `_get_minimum_tier_for_service`. -/
def get_minimum_tier_for_service (service : String) : String :=
  (dictGet [("dashboard", "trial"), ("analytics", "basic"), ("reports", "basic"),
            ("api", "pro"), ("integrations", "pro"), ("custom_modules", "enterprise"),
            ("white_label", "enterprise"), ("sso", "enterprise")] service).getD "enterprise"

/-- `_build_service_permissions` (its `allowed_services` argument is unused in
the source; access is decided purely by `tier_access`). -/
def build_service_permissions (tier : String) : List (String × ServicePerm) :=
  let enabled_services := tier_access tier
  all_possible_services.map (fun service =>
    (service, { enabled := enabled_services.contains service,
                tier_required := get_minimum_tier_for_service service }))

/-- `_build_feature_flags`. -/
def build_feature_flags (tier : String) : FeatureFlags :=
  { offline_mode_enabled := tier = "basic" ∨ tier = "pro" ∨ tier = "enterprise",
    max_offline_days := if tier = "basic" then 7 else if tier = "pro" then 30 else 90,
    auto_updates_enabled := tier = "pro" ∨ tier = "enterprise",
    auto_updates_channel := if tier = "pro" then "stable" else "all",
    priority_support_enabled := tier = "enterprise",
    sla_hours := if tier = "enterprise" then some 4 else none,
    custom_branding_enabled := tier = "enterprise",
    api_access_enabled := tier = "pro" ∨ tier = "enterprise",
    api_access_rate_limit := if tier = "pro" then 5000 else -1,
    export_data_enabled := tier = "basic" ∨ tier = "pro" ∨ tier = "enterprise",
    export_data_formats := if tier = "basic" then ["csv"] else ["csv", "json", "xlsx"] }

/-- `_add_cryptographic_layers`: set `security.fingerprint_hash`; compute the
HMAC over the canonical JSON of the certificate with the whole `security` key
popped (the `signature` keys do not exist yet at this point); store the HMAC
and the base64 HMAC key in `security`; then sign the canonical JSON of the
certificate including `security` and excluding the (still absent) `signature`
keys; finally attach `signature` and `signature_timestamp`. -/
def add_cryptographic_layers (env : Env) (certificate : Certificate)
    (machine_fingerprint : String) : Certificate × Env :=
  let fp_hash := sha3_512D (.str machine_fingerprint)
  let c1 := { certificate with
              security := { certificate.security with fingerprint_hash := some fp_hash } }
  let hmac_key := tokenBytes64 env.fresh
  let cert_bytes_for_hmac := certJsonNoSecurity c1
  let hmac_digest := hmacSha512D hmac_key cert_bytes_for_hmac
  let c2 := { c1 with
              security := { c1.security with
                            hmac := some hmac_digest,
                            hmac_key := some (b64encodeD hmac_key) } }
  let cert_bytes := certJson (popSignatureFields c2)
  let sig := rsaPssSign env.sk cert_bytes
  ({ c2 with signature := some sig, signature_timestamp := some env.now },
   { env with fresh := env.fresh + 1 })

/-- `generate_certificate`.  Fresh uuid-derived identifiers are drawn from the
environment's counter; `valid_days or tier_config["valid_days"]` and the other
`or` defaults follow Python truthiness (`None`, `0`, `[]` are falsy). -/
def generate_certificate (env : Env)
    (customer_id customer_name machine_fingerprint hostname product_key : String)
    (tier : String) (valid_days machine_limit : Option Int)
    (custom_services : Option (List String))
    (custom_image_tags : Option (List (String × String)))
    (metadata : List (String × SymData))
    (parent_cert_id : Option String) : Certificate × Env :=
  let cert_id := "CERT-" ++ toString env.fresh
  let machine_id := "MACHINE-" ++ toString (env.fresh + 1)
  let env1 : Env := { env with fresh := env.fresh + 2 }
  let tier_config := tierLimitsGet tier
  let actual_valid_days := pyOrInt valid_days tier_config.valid_days
  let actual_machine_limit := pyOrInt machine_limit tier_config.max_machines
  let issued_at := env.now
  let valid_until := issued_at + 86400 * actual_valid_days
  let allowed_services := pyOrList custom_services ((dictGet TIER_SERVICES tier).getD ["frontend"])
  let docker := build_docker_config tier allowed_services custom_image_tags
  let service_permissions := build_service_permissions tier
  let features := build_feature_flags tier
  let certificate : Certificate :=
    { certificate_id := cert_id,
      certificate_version := "3.1",
      certificate_type := "machine_license",
      tier := tier,
      customer := ⟨customer_id, customer_name, product_key⟩,
      machine := ⟨machine_id, machine_fingerprint, hostname, "SHA3-512"⟩,
      validity := ⟨issued_at, valid_until, actual_valid_days, 7, "UTC"⟩,
      limits := ⟨actual_machine_limit, 1, tier_config.concurrent_sessions,
                 tier_config.api_rate_limit⟩,
      services := service_permissions,
      docker := docker,
      features := features,
      upgrade_chain :=
        ⟨parent_cert_id,
         (match parent_cert_id with | none => 0 | some s => if s = "" then 0 else 1),
         parent_cert_id.isSome,
         tier ≠ "enterprise"⟩,
      security := ⟨"AES-256-GCM", "RSA-4096-SHA512", "HMAC-SHA512",
                   "machine_fingerprint", none, none, none⟩,
      metadata := metadata,
      signature := none,
      signature_timestamp := none }
  add_cryptographic_layers env1 certificate machine_fingerprint

/-- `upgrade_certificate`: additive merge of tier, days, limit, services and
image tags, a fresh certificate minted through `generate_certificate` with
`parent_cert_id` set to the old certificate id — and then, after the new
certificate has already been HMACed and signed, its `upgrade_count` is
overwritten with `old.upgrade_count + 1`.  (The source's
`list(set(old_enabled + additional_services))` has an unspecified iteration
order; it is modelled as duplicate removal keeping first occurrences — no
theorem below depends on this order.) -/
def upgrade_certificate (env : Env) (old_certificate : Certificate)
    (new_tier : Option String) (additional_days : Option Int)
    (new_machine_limit : Option Int) (additional_services : Option (List String))
    (new_image_tags : Option (List (String × String))) : Certificate × Env :=
  let customer_id := old_certificate.customer.customer_id
  let customer_name := old_certificate.customer.customer_name
  let machine_fingerprint := old_certificate.machine.machine_fingerprint
  let hostname := old_certificate.machine.hostname
  let product_key := old_certificate.customer.product_key
  let tier := pyOrStr new_tier old_certificate.tier
  let old_valid_until := old_certificate.validity.valid_until
  let d := pyOrInt additional_days 0
  let valid_days :=
    if d ≠ 0 then Int.fdiv (old_valid_until + 86400 * d - env.now) 86400
    else Int.fdiv (old_valid_until - env.now) 86400
  let machine_limit := pyOrInt new_machine_limit old_certificate.limits.max_machines
  let old_docker_services := old_certificate.docker.services
  let old_enabled := (old_docker_services.filter (fun p => p.2.enabled)).map (fun p => p.1)
  let allowed_services :=
    match additional_services with
    | none => (dictGet TIER_SERVICES tier).getD old_enabled
    | some l =>
        if l.isEmpty then (dictGet TIER_SERVICES tier).getD old_enabled
        else (old_enabled ++ l).eraseDups
  let old_tags := old_docker_services.map (fun p => (p.1, p.2.tag))
  let tags :=
    match new_image_tags with
    | none => old_tags
    | some ts => ts.foldl (fun acc kv => dictSet kv.1 kv.2 acc) old_tags
  let upgrade_metadata : List (String × SymData) :=
    [("upgrade_from_tier", .str old_certificate.tier),
     ("upgrade_to_tier", .str tier),
     ("upgrade_reason", .str "customer_upgrade"),
     ("upgraded_at", isoD env.now)]
  let minted := generate_certificate env customer_id customer_name machine_fingerprint
      hostname product_key tier (some valid_days) (some machine_limit)
      (some allowed_services) (some tags) upgrade_metadata
      (some old_certificate.certificate_id)
  let new_cert := minted.1
  ({ new_cert with
     upgrade_chain := { new_cert.upgrade_chain with
                        upgrade_count := old_certificate.upgrade_chain.upgrade_count + 1 } },
   minted.2)

/-! ## Client-side signature verification (`container_validator.py`) -/

/-- `verify_certificate_signature`: fail when no `signature` key is present;
otherwise re-serialize the certificate with `signature` and
`signature_timestamp` popped (`json.dumps(..., sort_keys=True)`) and check the
RSA-PSS-SHA512 signature against the public key. -/
def verify_certificate_signature (pk : Nat) (certificate : Certificate) :
    Bool × Option String :=
  match certificate.signature with
  | none => (false, some "No signature in certificate")
  | some sig =>
      let cert_json := certJson (popSignatureFields certificate)
      if rsaPssVerify pk cert_json sig then (true, none)
      else (false, some "Invalid signature")

/-! ## Symmetric sealing: server `_encrypt_data` / `generate_docker_credentials`,
installer `CryptoUtils` -/

/-- Byte concatenation `nonce + ciphertext` where the nonce is exactly 12 bytes;
since the prefix length is fixed, the concatenation splits back uniquely and is
modelled as a tagged pair. -/
def noncePrefixConcat (nonce ct : SymData) : SymData :=
  .prim "nonce12-concat" (listD [nonce, ct])

/-- The split `raw[:12]`, `raw[12:]` of a 12-byte-nonce-prefixed blob. -/
def splitNonce12 : SymData → Option (SymData × SymData)
  | .prim "nonce12-concat" (.consD _ n (.consD _ ct .nilD)) => some (n, ct)
  | _ => none

/-- Server `_encrypt_data(data, key)`: AES-256-GCM under `SHA256(key)` with a
fresh 12-byte nonce, base64 of `nonce + ciphertext`. -/
def encrypt_data (data key nonce : SymData) : SymData :=
  b64encodeD (noncePrefixConcat nonce (aesgcmEncrypt (sha256D key) nonce data))

/-- The `docker_credentials` object returned by `generate_docker_credentials`. -/
structure DockerCredentials where
  encrypted_credentials : SymData
  encryption_method : String
  key_derivation : String
deriving DecidableEq, Repr

/-- The plaintext credentials dict `{registry, username, token, generated_at}`
serialized by `json.dumps(credentials)` (insertion order, no key sorting). -/
def credentialsJson (docker_pat : String) (now : Int) : SymData :=
  .obj (entriesD [("registry", .str REGISTRY_CONFIG.1),
                  ("username", .str REGISTRY_CONFIG.2),
                  ("token", .str docker_pat),
                  ("generated_at", isoD now)])

/-- `generate_docker_credentials`: `ValueError` (modelled as `none`) when no
Docker PAT is configured, otherwise the credentials dict encrypted with
`_encrypt_data` keyed to the machine fingerprint. -/
def generate_docker_credentials (env : Env) (machine_fingerprint : String) :
    Option (DockerCredentials × Env) :=
  if env.docker_pat = "" then none
  else
    let credentials := credentialsJson env.docker_pat env.now
    let nonce := tokenBytes12 env.fresh
    some ({ encrypted_credentials := encrypt_data credentials (.str machine_fingerprint) nonce,
            encryption_method := "AES-256-GCM",
            key_derivation := "SHA256(machine_fingerprint)" },
          { env with fresh := env.fresh + 1 })

/-- Installer `CryptoUtils.decrypt_credentials`: base64-decode, split nonce and
ciphertext, AES-256-GCM-decrypt under `SHA256(machine_fingerprint)`,
`json.loads` the plaintext (the identity on a JSON value that round-trips). -/
def decrypt_credentials (encrypted_data : SymData) (machine_fingerprint : String) :
    Option SymData := do
  let raw ← b64decodeD encrypted_data
  let (nonce, ciphertext) ← splitNonce12 raw
  aesgcmDecrypt (sha256D (.str machine_fingerprint)) nonce ciphertext

/-- Installer `CryptoUtils.encrypt_file`: AES-256-GCM under `SHA256(key)` with
a fresh 12-byte nonce, returning `nonce + ciphertext` (no base64). -/
def encrypt_file (data key nonce : SymData) : SymData :=
  noncePrefixConcat nonce (aesgcmEncrypt (sha256D key) nonce data)

/-- Installer `CryptoUtils.decrypt_file`: split `raw[:12]` / `raw[12:]` and
AES-256-GCM-decrypt under `SHA256(key)`. -/
def decrypt_file (encrypted_data key : SymData) : Option SymData := do
  let (nonce, ciphertext) ← splitNonce12 encrypted_data
  aesgcmDecrypt (sha256D key) nonce ciphertext

/-- `generate_compose_file`: a pure YAML rendering of the enabled docker
services and the tier, kept symbolic (no claim inspects its contents). -/
def generate_compose_file (certificate : Certificate) : SymData :=
  .prim "docker-compose-yaml"
    (listD [dockerConfigToJson certificate.docker, .str certificate.tier])

/-- The activation bundle of `generate_activation_bundle`. -/
structure Bundle where
  bundle_version : String
  generated_at : Int
  certificate : Certificate
  docker_credentials : Option DockerCredentials
  compose_file : Option SymData
  public_key : SymData
deriving DecidableEq, Repr

/-- `generate_activation_bundle`: certificate, encrypted Docker credentials
(when a PAT is configured), compose file (when requested), public-key PEM. -/
def generate_activation_bundle (env : Env) (certificate : Certificate)
    (machine_fingerprint : String) (include_compose : Bool) : Bundle × Env :=
  let credsEnv :=
    match generate_docker_credentials env machine_fingerprint with
    | none => (none, env)
    | some (c, e) => (some c, e)
  ({ bundle_version := "1.0",
     generated_at := env.now,
     certificate := certificate,
     docker_credentials := credsEnv.1,
     compose_file := if include_compose then some (generate_compose_file certificate) else none,
     public_key := pemD env.sk },
   credsEnv.2)

/-! ## Persistent store (`db.py`) -/

/-- A row of the `customers` table. -/
structure Customer where
  id : String
  company_name : String
  product_key : String
  machine_limit : Int
  valid_days : Int
  allowed_services : List String
  tier : String
  revoked : Bool
deriving DecidableEq, Repr

/-- A row of the `machines` table. -/
structure MachineRow where
  id : String
  customer_id : String
  fingerprint : String
  hostname : String
  os_info : Option String
  app_version : Option String
  ip_address : Option String
  certificate : Option Certificate
  status : String
  created_at : Int
  last_seen : Int
deriving DecidableEq, Repr

/-- The SQLite database contents relevant to the claims. -/
structure ServerDB where
  customers : List Customer
  machines : List MachineRow
deriving DecidableEq, Repr

/-- `get_customer_by_product_key` (the column is UNIQUE; the first match is the
only match on well-formed databases). -/
def get_customer_by_product_key (db : ServerDB) (product_key : String) : Option Customer :=
  db.customers.find? (fun c => c.product_key == product_key)

/-- `get_machine_by_fingerprint` (the column is UNIQUE). -/
def get_machine_by_fingerprint (db : ServerDB) (fingerprint : String) : Option MachineRow :=
  db.machines.find? (fun m => m.fingerprint == fingerprint)

/-- `count_active_machines`: `COUNT(*) WHERE customer_id = ? AND status = 'active'`. -/
def count_active_machines (db : ServerDB) (customer_id : String) : Int :=
  Int.ofNat ((db.machines.filter
    (fun m => m.customer_id == customer_id && m.status == "active")).length)

/-- Errors raised by the SQLite layer. -/
inductive DbError where
  | uniqueFingerprint
deriving DecidableEq, Repr

/-- `register_machine`: a plain `INSERT INTO machines ...`.  The schema declares
`fingerprint TEXT UNIQUE NOT NULL`, so inserting a fingerprint that is already
present raises `sqlite3.IntegrityError`; the function itself performs no
existence check.  The new row gets `status` and timestamp column defaults. -/
def register_machine (db : ServerDB) (machine_id : String) (now : Int)
    (customer_id fingerprint hostname : String)
    (os_info app_version ip_address : Option String)
    (certificate : Option Certificate) : Except DbError (ServerDB × MachineRow) :=
  if db.machines.any (fun m => m.fingerprint == fingerprint) then
    .error .uniqueFingerprint
  else
    let row : MachineRow :=
      { id := machine_id, customer_id := customer_id, fingerprint := fingerprint,
        hostname := hostname, os_info := os_info, app_version := app_version,
        ip_address := ip_address, certificate := certificate,
        status := "active", created_at := now, last_seen := now }
    .ok ({ db with machines := db.machines ++ [row] }, row)

/-- `update_machine_last_seen`. -/
def update_machine_last_seen (db : ServerDB) (machine_id : String) (now : Int) : ServerDB :=
  { db with machines :=
      db.machines.map (fun m => if m.id == machine_id then { m with last_seen := now } else m) }

/-- `generate_product_key`.  The three `random.choices` draws are passed in
explicitly: `padDraw` is the draw from `string.ascii_uppercase` padding the
company prefix to 4 characters (`k = 4 - len(prefix)`, or `k = 4` when no name
is given), `blockDraw` and `tailDraw` are the draws from
`string.ascii_uppercase + string.digits` with `k = 8` and `k = 3`. -/
def generate_product_key (company_name : Option String) (year : Nat)
    (padDraw blockDraw tailDraw : List Char) : String :=
  let pfx :=
    match company_name with
    | some name =>
        let base := ((name.toList.map Char.toUpper).filter Char.isAlphanum).take 4
        if base.length < 4 then base ++ padDraw else base
    | none => padDraw
  String.mk pfx ++ "-" ++ toString year ++ "-" ++ String.mk blockDraw ++ "-" ++ String.mk tailDraw

/-- The alphabet `string.ascii_uppercase + string.digits` actually used for the
random block and the 3-character suffix of a product key. -/
def product_key_alphabet : List Char :=
  "ABCDEFGHIJKLMNOPQRSTUVWXYZ0123456789".toList

/-! ## Server endpoints (`server.py`) -/

/-- The pydantic `ActivationRequest` (`app_version` defaults to `"1.0.0"` at
parse time; a field still holds `None` when the client sends an explicit null). -/
structure ActivationRequest where
  product_key : String
  machine_fingerprint : String
  hostname : String
  os_info : Option String
  app_version : Option String
deriving DecidableEq, Repr

/-- The JSON body returned by a successful activation. -/
structure ActivationResponse where
  success : Bool
  message : String
  bundle : Bundle
  tier : String
  customer_name : String
  services_enabled : List String
deriving DecidableEq, Repr

/-- Outcome of one request to `POST /api/v1/activate`: a 200 response, an
`HTTPException` with a 4xx status, or an unhandled exception which FastAPI
turns into an HTTP 500. -/
inductive ActivateResult where
  | ok (resp : ActivationResponse)
  | httpError (statusCode : Nat) (detail : String)
  | internalError (statusCode : Nat) (exc : String)
deriving DecidableEq, Repr

/-- `activate_machine` (`POST /api/v1/activate`).

The source handler starts by *defining* an inner duplicate route handler that
contains the already-activated and different-product-key checks.  That inner
definition is registered with the router after the outer route and is therefore
never matched (Starlette dispatches to the first registered route), and its
body refers to names (`bundle`, `active_count`, `customer`, `tier`) that are
not in scope; the executed request path is the code that follows it, starting
at the product-key lookup.  In particular no fingerprint lookup happens before
`register_machine`, whose UNIQUE-constraint failure surfaces as an unhandled
`sqlite3.IntegrityError` (HTTP 500). -/
def activate_machine (db : ServerDB) (env : Env) (req : ActivationRequest)
    (client_ip : String) : ActivateResult × ServerDB × Env :=
  match get_customer_by_product_key db req.product_key with
  | none => (.httpError 404 ("Product key not found: " ++ req.product_key), db, env)
  | some customer =>
    if customer.revoked then
      (.httpError 403 "Customer license has been revoked", db, env)
    else
      let active_count := count_active_machines db customer.id
      if active_count ≥ customer.machine_limit then
        (.httpError 403 ("Machine limit reached (" ++ toString active_count ++ "/" ++
                         toString customer.machine_limit ++ ")"), db, env)
      else
        let tier := customer.tier
        let metadata : List (String × SymData) :=
          [("os_info", optStrD req.os_info),
           ("app_version", optStrD req.app_version),
           ("activated_from_ip", .str client_ip),
           ("activation_timestamp", isoD env.now)]
        let minted := generate_certificate env customer.id customer.company_name
          req.machine_fingerprint req.hostname req.product_key tier
          (some customer.valid_days) (some customer.machine_limit)
          none none metadata none
        let certificate := minted.1
        let bundled := generate_activation_bundle minted.2 certificate
          req.machine_fingerprint true
        let bundle := bundled.1
        let env2 := bundled.2
        let machine_uuid := "uuid-" ++ toString env2.fresh
        let env3 : Env := { env2 with fresh := env2.fresh + 1 }
        match register_machine db machine_uuid env3.now customer.id
            req.machine_fingerprint req.hostname req.os_info req.app_version
            (some client_ip) (some certificate) with
        | .error .uniqueFingerprint =>
            (.internalError 500
               "sqlite3.IntegrityError: UNIQUE constraint failed: machines.fingerprint",
             db, env3)
        | .ok dbRow =>
            (.ok { success := true,
                   message := "Activation successful (" ++ toString (active_count + 1) ++
                              "/" ++ toString customer.machine_limit ++ " machines)",
                   bundle := bundle,
                   tier := tier,
                   customer_name := customer.company_name,
                   services_enabled :=
                     ((certificate.docker.services.filter (fun p => p.2.enabled)).map
                       (fun p => p.1)) },
             dbRow.1, env3)

/-- The body of `POST /api/v1/validate`. -/
structure ValidationRequest where
  certificate : Certificate
  machine_fingerprint : String
  service : Option String
  docker_image : Option String
deriving DecidableEq, Repr

/-- The verdict returned by validation (keys beyond `valid`/`reason` are only
present on the branches that set them). -/
structure Verdict where
  valid : Bool
  reason : String
  service : Option String := none
  image : Option String := none
  message : Option String := none
  tier : Option String := none
  expires_at : Option Int := none
  services_enabled : Option (List String) := none
deriving DecidableEq, Repr

/-- `validate_certificate` (`POST /api/v1/validate`), over well-formed
certificate documents.  (The source reads the fingerprint as
`cert.get("machine", {}).get("machine_fingerprint") or cert.get("machine_fingerprint")`
and the expiry as `validity.get("valid_until") or cert.get("valid_till")`;
a document produced by `generate_certificate` always carries the `machine`
block and `validity.valid_until`, so the legacy fallback keys are not
modelled.)  Note the branch order of the source: the expiry/grace branches
return before the service check, and `last_seen` is only touched on the final
`ok` path.  The service check looks the requested name up in the *top-level*
`services` permission map of the certificate, not in `docker.services`. -/
def validate_certificate (db : ServerDB) (now : Int) (req : ValidationRequest) :
    Verdict × ServerDB :=
  let certificate := req.certificate
  let cert_fingerprint := certificate.machine.machine_fingerprint
  if cert_fingerprint = "" then
    ({ valid := false, reason := "missing_fingerprint" }, db)
  else if cert_fingerprint ≠ req.machine_fingerprint then
    ({ valid := false, reason := "fingerprint_mismatch" }, db)
  else
    match get_machine_by_fingerprint db req.machine_fingerprint with
    | none => ({ valid := false, reason := "machine_not_found" }, db)
    | some machine =>
      if machine.status = "revoked" then
        ({ valid := false, reason := "revoked" }, db)
      else
        let valid_until := certificate.validity.valid_until
        if now > valid_until then
          let grace_days := certificate.validity.grace_period_days
          let grace_until := valid_until + 86400 * grace_days
          if now > grace_until then
            ({ valid := false, reason := "expired" }, db)
          else
            ({ valid := true, reason := "grace_period",
               message := some ("License expired but within " ++ toString grace_days ++
                                "-day grace period") }, db)
        else
          let serviceOk :=
            match req.service with
            | none => true
            | some s =>
                match dictGet certificate.services s with
                | none => false
                | some cfg => cfg.enabled
          if !serviceOk then
            ({ valid := false, reason := "service_not_allowed", service := req.service }, db)
          else
            let allowed_images :=
              (certificate.docker.services.filter (fun p => p.2.enabled)).map
                (fun p => p.2.image ++ ":" ++ p.2.tag)
            let imageOk :=
              match req.docker_image with
              | none => true
              | some img => allowed_images.contains img
            if !imageOk then
              ({ valid := false, reason := "docker_image_not_allowed",
                 image := req.docker_image }, db)
            else
              ({ valid := true, reason := "ok",
                 tier := some certificate.tier,
                 expires_at := some valid_until,
                 services_enabled :=
                   some ((certificate.docker.services.filter (fun p => p.2.enabled)).map
                     (fun p => p.1)) },
               update_machine_last_seen db machine.id now)

/-! ## Concrete fixtures used by counterexamples and witnesses -/

/-- Whether an activation outcome is a 200 response. -/
def ActivateResult.isOk : ActivateResult → Bool
  | .ok _ => true
  | _ => false

/-- Issuer environment at epoch time 0 with a configured Docker PAT. -/
def env0 : Env := ⟨0, 0, 1, "dckr_pat_fixture"⟩

/-- A `pro` customer with quota 10. -/
def custA : Customer :=
  ⟨"cust-A", "Acme", "ACME-2025-AAAAAAAA-AAA", 10, 365, ["frontend", "backend", "analytics"],
   "pro", false⟩

/-- A second, `basic` customer with its own product key. -/
def custB : Customer :=
  ⟨"cust-B", "Beta", "BETA-2025-BBBBBBBB-BBB", 3, 365, ["frontend", "backend"], "basic", false⟩

/-- Database with the two customers and no machines. -/
def db0 : ServerDB := ⟨[custA, custB], []⟩

/-- The shared machine fingerprint of the scenarios. -/
def fp1 : String := "F1-fingerprint"

/-- Activation request for customer A's key from fingerprint `fp1`. -/
def reqA : ActivationRequest :=
  ⟨"ACME-2025-AAAAAAAA-AAA", fp1, "acme-1", some "Linux", some "1.0.0"⟩

/-- Activation request for customer B's key from the same fingerprint `fp1`. -/
def reqB : ActivationRequest :=
  ⟨"BETA-2025-BBBBBBBB-BBB", fp1, "beta-1", some "Linux", some "1.0.0"⟩

/-- First activation of `fp1` under customer A's key. -/
def act1 : ActivateResult × ServerDB × Env := activate_machine db0 env0 reqA "10.0.0.1"

/-- Database after the first activation. -/
def db1 : ServerDB := act1.2.1

/-- Environment after the first activation. -/
def env1 : Env := act1.2.2

/-- A certificate minted directly (basic tier, 1 day of validity, minted at
time 0, so `valid_until = 86400`). -/
def certM : Certificate :=
  (generate_certificate env0 "cust-A" "Acme" fp1 "acme-1" "ACME-2025-AAAAAAAA-AAA"
    "basic" (some 1) none none none [] none).1

/-- Environment left after minting `certM`. -/
def envM : Env := (generate_certificate env0 "cust-A" "Acme" fp1 "acme-1"
  "ACME-2025-AAAAAAAA-AAA" "basic" (some 1) none none none [] none).2

/-- Upgrade environment: half a day after minting `certM`. -/
def envU : Env := { envM with now := 43200 }

/-- First upgrade of `certM` (30 extra days). -/
def up1 : Certificate × Env := upgrade_certificate envU certM none (some 30) none none none

/-- Second, chained upgrade of the first upgrade's certificate. -/
def up2 : Certificate × Env := upgrade_certificate up1.2 up1.1 none (some 30) none none none

/-- A `pro` certificate for `fp1`, minted at time 0 with 365 days of validity
(`valid_until = 31536000`). -/
def certPro : Certificate :=
  (generate_certificate env0 "cust-A" "Acme" fp1 "acme-1" "ACME-2025-AAAAAAAA-AAA"
    "pro" (some 365) (some 10) none none [] none).1

/-- The registered active machine row holding `certPro`. -/
def machineRow1 : MachineRow :=
  ⟨"m-1", "cust-A", fp1, "acme-1", none, none, none, some certPro, "active", 0, 0⟩

/-- Database for the validation scenarios. -/
def dbV : ServerDB := ⟨[custA], [machineRow1]⟩

/-- The HMAC recomputation prescribed by the claim: key = base64-decoded
`security.hmac_key`, message = canonical JSON with *only* the `security`
block removed (`signature`/`signature_timestamp` left in place as they are in
the final certificate). -/
def hmac_recompute_claim (c : Certificate) : Option SymData := do
  let kk ← c.security.hmac_key
  let key ← b64decodeD kk
  some (hmacSha512D key (certJsonNoSecurity c))

/-- The HMAC recomputation matching the minting code: key as above, message =
canonical JSON with the `security` block *and* the `signature`/
`signature_timestamp` keys removed (the latter two did not exist yet when the
HMAC was computed). -/
def hmac_recompute_mint (c : Certificate) : Option SymData := do
  let kk ← c.security.hmac_key
  let key ← b64decodeD kk
  some (hmacSha512D key (certJsonNoSecurity (popSignatureFields c)))

/-! ## Shared lemmas about the validation endpoint -/

/-- On a registered, non-revoked machine with matching, non-empty fingerprint
and `now ≤ valid_until`, a plain validation request (no service, no image)
returns the full `ok` response and touches `last_seen`. -/
theorem validate_ok_eq (db : ServerDB) (now : Int) (c : Certificate) (fp : String)
    (m : MachineRow)
    (hfp : c.machine.machine_fingerprint = fp) (hne : fp ≠ "")
    (hm : get_machine_by_fingerprint db fp = some m) (hrev : m.status ≠ "revoked")
    (hvu : now ≤ c.validity.valid_until) :
    validate_certificate db now ⟨c, fp, none, none⟩ =
      ({ valid := true, reason := "ok", tier := some c.tier,
         expires_at := some c.validity.valid_until,
         services_enabled :=
           some ((c.docker.services.filter (fun p => p.2.enabled)).map (fun p => p.1)) },
       update_machine_last_seen db m.id now) := by
  have h3 : ¬ (now > c.validity.valid_until) := not_lt.mpr hvu
  simp [validate_certificate, hfp, hm, hne, hrev, h3]

/-- Within the grace window (`valid_until < now ≤ valid_until + grace_days`),
validation returns the `grace_period` verdict and returns before touching
`last_seen`. -/
theorem validate_grace_eq (db : ServerDB) (now : Int) (c : Certificate) (fp : String)
    (m : MachineRow)
    (hfp : c.machine.machine_fingerprint = fp) (hne : fp ≠ "")
    (hm : get_machine_by_fingerprint db fp = some m) (hrev : m.status ≠ "revoked")
    (h1 : c.validity.valid_until < now)
    (h2 : now ≤ c.validity.valid_until + 86400 * c.validity.grace_period_days) :
    validate_certificate db now ⟨c, fp, none, none⟩ =
      ({ valid := true, reason := "grace_period",
         message := some ("License expired but within " ++
                          toString c.validity.grace_period_days ++ "-day grace period") },
       db) := by
  have h3 : ¬ (now > c.validity.valid_until + 86400 * c.validity.grace_period_days) :=
    not_lt.mpr h2
  simp [validate_certificate, hfp, hm, hne, hrev, h1, h3]

/-- Beyond the grace window, validation returns `expired`. -/
theorem validate_expired_eq (db : ServerDB) (now : Int) (c : Certificate) (fp : String)
    (m : MachineRow)
    (hfp : c.machine.machine_fingerprint = fp) (hne : fp ≠ "")
    (hm : get_machine_by_fingerprint db fp = some m) (hrev : m.status ≠ "revoked")
    (hg : 0 ≤ c.validity.grace_period_days)
    (h1 : c.validity.valid_until + 86400 * c.validity.grace_period_days < now) :
    validate_certificate db now ⟨c, fp, none, none⟩ =
      ({ valid := false, reason := "expired" }, db) := by
  have h0 : c.validity.valid_until < now := by nlinarith
  simp [validate_certificate, hfp, hm, hne, hrev, h0, h1]

/-! ## Claim theorems -/

/-- C1.  The claim states that a second `activate` with the same product key
and fingerprint succeeds idempotently with the same `certificate_id` and no new
quota slot.  On the code, the idempotent-return path is dead (a nested route
handler that is never dispatched), so the second call reaches
`register_machine`, whose `INSERT` violates the UNIQUE fingerprint constraint:
after a successful first activation of `fp1` under customer A's key, the second
identical call returns HTTP 500 (`sqlite3.IntegrityError`) instead of
succeeding, leaving the database unchanged. -/
theorem c1_reactivation_crashes_instead_of_idempotent_return :
    act1.1.isOk = true ∧
    (activate_machine db1 env1 reqA "10.0.0.1").1 =
      .internalError 500 "sqlite3.IntegrityError: UNIQUE constraint failed: machines.fingerprint" ∧
    (activate_machine db1 env1 reqA "10.0.0.1").2.1 = db1 ∧
    count_active_machines db1 "cust-A" = 1 := by
  decide

/-- C2.  The claim states that activating an already-bound fingerprint under a
different product key fails with HTTP 403 and reason `different_product_key`.
The cross-key check is dead code on the executed path: after `fp1` is bound to
customer A, activating it with customer B's key passes B's quota check and
crashes in `register_machine` with HTTP 500 (`sqlite3.IntegrityError`), not a
403; no new machine row is created. -/
theorem c2_cross_key_activation_crashes_without_403 :
    act1.1.isOk = true ∧
    (get_machine_by_fingerprint db1 fp1).map (fun m => m.customer_id) = some "cust-A" ∧
    (activate_machine db1 env1 reqB "10.0.0.2").1 =
      .internalError 500 "sqlite3.IntegrityError: UNIQUE constraint failed: machines.fingerprint" ∧
    (activate_machine db1 env1 reqB "10.0.0.2").2.1 = db1 := by
  decide

/-- C3.  The claim states that every certificate the Issuer produces — minted
or upgraded — passes RSA-PSS verification over the canonical JSON with the
signature fields removed.  A freshly minted certificate and a first upgrade do
verify, but `upgrade_certificate` overwrites `upgrade_chain.upgrade_count`
*after* `generate_certificate` has signed the document, so a second, chained
upgrade (signed while `upgrade_count = 1`, then rewritten to `2`) fails
verification by the repo's own verifier. -/
theorem c3_second_upgrade_breaks_signature :
    (verify_certificate_signature env0.sk certM).1 = true ∧
    (verify_certificate_signature env0.sk up1.1).1 = true ∧
    up1.1.upgrade_chain.upgrade_count = 1 ∧
    (verify_certificate_signature env0.sk up2.1).1 = false ∧
    up2.1.upgrade_chain.upgrade_count = 2 := by
  decide

/-- C4 counterexample.  Recomputing the HMAC over the canonical JSON with only
the `security` block removed — `signature` and `signature_timestamp` left in
place, as the claim demands — does *not* reproduce `security.hmac` on a minted
certificate, because the minting code computed the HMAC before those two keys
existed. -/
theorem c4_counterexample_signature_fields_poison_hmac :
    hmac_recompute_claim certM ≠ certM.security.hmac ∧
    certM.security.hmac.isSome = true ∧
    certM.security.hmac_key.isSome = true ∧
    certM.signature.isSome = true := by
  decide

/-- C4 amended.  For every certificate produced by `generate_certificate`,
HMAC-SHA-512 keyed by the base64-decoded `security.hmac_key` over the
canonical JSON with the `security` block *and* the `signature` /
`signature_timestamp` keys removed yields exactly `security.hmac`. -/
theorem c4_hmac_preimage_excludes_signature_fields (env : Env)
    (customer_id customer_name machine_fingerprint hostname product_key tier : String)
    (valid_days machine_limit : Option Int) (custom_services : Option (List String))
    (custom_image_tags : Option (List (String × String)))
    (metadata : List (String × SymData)) (parent_cert_id : Option String) :
    hmac_recompute_mint (generate_certificate env customer_id customer_name
        machine_fingerprint hostname product_key tier valid_days machine_limit
        custom_services custom_image_tags metadata parent_cert_id).1
      = (generate_certificate env customer_id customer_name machine_fingerprint
          hostname product_key tier valid_days machine_limit custom_services
          custom_image_tags metadata parent_cert_id).1.security.hmac := rfl

/-- C5.  The claim states the verdict is `ok` exactly when the requested
service is an enabled entry of the certificate's *docker* service map, with
`backend` accepted on a pro certificate.  The endpoint instead looks the name
up in the top-level `services` permission map (keys `dashboard`, `analytics`,
`reports`, ...), where `backend` never occurs: on an otherwise-valid pro
certificate, `service="backend"` is refused with `service_not_allowed` even
though `docker.services.backend.enabled = true`; `service="monitoring"` is
also refused; a request without a service returns `ok`. -/
theorem c5_service_check_consults_permission_map_not_docker_map :
    certPro.tier = "pro" ∧
    (validate_certificate dbV 1000 ⟨certPro, fp1, none, none⟩).1.reason = "ok" ∧
    (dictGet certPro.docker.services "backend").map (fun s => s.enabled) = some true ∧
    (validate_certificate dbV 1000 ⟨certPro, fp1, some "backend", none⟩).1.valid = false ∧
    (validate_certificate dbV 1000 ⟨certPro, fp1, some "backend", none⟩).1.reason
      = "service_not_allowed" ∧
    (validate_certificate dbV 1000 ⟨certPro, fp1, some "monitoring", none⟩).1.reason
      = "service_not_allowed" := by
  decide

/-- C6.  For a registered, non-revoked machine with matching fingerprint:
strictly before `valid_until` validation returns `valid:true` with `ok`; after
`valid_until` but not beyond `valid_until + 86400 * grace_period_days` it
returns `valid:true` with `grace_period`; beyond that it returns `valid:false`
with `expired`. -/
theorem c6_expiry_and_grace_boundaries (db : ServerDB) (now : Int) (c : Certificate)
    (fp : String) (m : MachineRow)
    (hfp : c.machine.machine_fingerprint = fp) (hne : fp ≠ "")
    (hm : get_machine_by_fingerprint db fp = some m) (hrev : m.status ≠ "revoked")
    (hg : 0 ≤ c.validity.grace_period_days) :
    (now < c.validity.valid_until →
      (validate_certificate db now ⟨c, fp, none, none⟩).1.valid = true ∧
      (validate_certificate db now ⟨c, fp, none, none⟩).1.reason = "ok") ∧
    (c.validity.valid_until < now ∧
        now ≤ c.validity.valid_until + 86400 * c.validity.grace_period_days →
      (validate_certificate db now ⟨c, fp, none, none⟩).1.valid = true ∧
      (validate_certificate db now ⟨c, fp, none, none⟩).1.reason = "grace_period") ∧
    (c.validity.valid_until + 86400 * c.validity.grace_period_days < now →
      (validate_certificate db now ⟨c, fp, none, none⟩).1.valid = false ∧
      (validate_certificate db now ⟨c, fp, none, none⟩).1.reason = "expired") := by
  refine ⟨fun h => ?_, fun h => ?_, fun h => ?_⟩
  · rw [validate_ok_eq db now c fp m hfp hne hm hrev (le_of_lt h)]
    exact ⟨rfl, rfl⟩
  · rw [validate_grace_eq db now c fp m hfp hne hm hrev h.1 h.2]
    exact ⟨rfl, rfl⟩
  · rw [validate_expired_eq db now c fp m hfp hne hm hrev hg h]
    exact ⟨rfl, rfl⟩

/-- C6 witness: the pro certificate (`valid_until = 31536000`, grace 7 days)
validated one minute past expiry is in the grace window. -/
theorem c6_witness :
    certPro.machine.machine_fingerprint = fp1 ∧ fp1 ≠ "" ∧
    get_machine_by_fingerprint dbV fp1 = some machineRow1 ∧
    machineRow1.status ≠ "revoked" ∧
    (0 : Int) ≤ certPro.validity.grace_period_days ∧
    certPro.validity.valid_until < 31536060 ∧
    (31536060 : Int) ≤ certPro.validity.valid_until + 86400 * certPro.validity.grace_period_days ∧
    (validate_certificate dbV 31536060 ⟨certPro, fp1, none, none⟩).1.valid = true ∧
    (validate_certificate dbV 31536060 ⟨certPro, fp1, none, none⟩).1.reason = "grace_period" :=
  ⟨by decide, by decide, by decide, by decide, by decide, by decide, by decide,
   (c6_expiry_and_grace_boundaries dbV 31536060 certPro fp1 machineRow1 (by decide)
      (by decide) (by decide) (by decide) (by decide)).2.1 ⟨by decide, by decide⟩⟩

/-- C7 counterexample.  Upgrading `certM` (minted at time 0 with
`valid_until = 86400`) half a day later with `additional_days = 30` keeps the
claimed chain fields but produces `valid_until = 2635200`
(`now + 30 whole days`), not `86400 + 30·86400 = 2678400`: the days are
re-anchored to the wall clock with whole-day truncation, not added to the
previous `valid_until`. -/
theorem c7_counterexample_days_truncated_against_clock :
    up1.1.upgrade_chain.parent_certificate_id = some certM.certificate_id ∧
    up1.1.upgrade_chain.upgrade_count = certM.upgrade_chain.upgrade_count + 1 ∧
    certM.validity.valid_until = 86400 ∧
    envU.now = 43200 ∧
    up1.1.validity.valid_until = 2635200 ∧
    up1.1.validity.valid_until ≠ certM.validity.valid_until + 86400 * 30 := by
  decide

/-- C7 amended.  For every upgrade with a nonzero `additional_days` whose
re-derived whole-day count is nonzero: the new certificate's
`parent_certificate_id` is the old `certificate_id`, its `upgrade_count` is the
old one plus 1, and its `valid_until` equals the upgrade-time clock plus the
floor of `(old.valid_until + 86400·d − now) / 86400` whole days — which equals
`old.valid_until + 86400·d` only when `old.valid_until − now` is a whole
number of days. -/
theorem c7_upgrade_chain_and_clock_anchored_validity (env : Env) (old : Certificate)
    (new_tier : Option String) (d : Int) (new_machine_limit : Option Int)
    (additional_services : Option (List String))
    (new_image_tags : Option (List (String × String)))
    (hd : d ≠ 0)
    (hvd : Int.fdiv (old.validity.valid_until + 86400 * d - env.now) 86400 ≠ 0) :
    (upgrade_certificate env old new_tier (some d) new_machine_limit additional_services
        new_image_tags).1.upgrade_chain.parent_certificate_id = some old.certificate_id ∧
    (upgrade_certificate env old new_tier (some d) new_machine_limit additional_services
        new_image_tags).1.upgrade_chain.upgrade_count
      = old.upgrade_chain.upgrade_count + 1 ∧
    (upgrade_certificate env old new_tier (some d) new_machine_limit additional_services
        new_image_tags).1.validity.valid_until
      = env.now + 86400 * Int.fdiv (old.validity.valid_until + 86400 * d - env.now) 86400 := by
  unfold upgrade_certificate generate_certificate add_cryptographic_layers
  simp [pyOrInt, hd, hvd]

/-- C7 witness: the concrete upgrade of `certM` instantiates the amended
theorem (`d = 30`, whole-day count `fdiv (86400 + 2592000 − 43200) 86400 = 30`). -/
theorem c7_witness :
    (30 : Int) ≠ 0 ∧
    Int.fdiv (certM.validity.valid_until + 86400 * 30 - envU.now) 86400 ≠ 0 ∧
    up1.1.upgrade_chain.parent_certificate_id = some certM.certificate_id ∧
    up1.1.upgrade_chain.upgrade_count = certM.upgrade_chain.upgrade_count + 1 ∧
    up1.1.validity.valid_until
      = envU.now + 86400 * Int.fdiv (certM.validity.valid_until + 86400 * 30 - envU.now) 86400 :=
  ⟨by decide, by decide,
   (c7_upgrade_chain_and_clock_anchored_validity envU certM none 30 none none none
      (by decide) (by decide)).1,
   (c7_upgrade_chain_and_clock_anchored_validity envU certM none 30 none none none
      (by decide) (by decide)).2.1,
   (c7_upgrade_chain_and_clock_anchored_validity envU certM none 30 none none none
      (by decide) (by decide)).2.2⟩

/-- C8 counterexample.  The last three characters of a product key are an
independent random draw from `A–Z0–9`, not a checksum of the first three
parts, and the alphabet does not exclude `0`, `O`, `1`, `I`: two legal draws
share the first three parts yet differ in the final part, and a legal draw
contains the supposedly excluded character `0`. -/
theorem c8_counterexample_random_tail_and_confusable_alphabet :
    ("O0I1O0I1".toList.all (fun ch => ch ∈ product_key_alphabet)) = true ∧
    ("000".toList.all (fun ch => ch ∈ product_key_alphabet)) = true ∧
    ("111".toList.all (fun ch => ch ∈ product_key_alphabet)) = true ∧
    generate_product_key (some "Acme") 2025 [] "O0I1O0I1".toList "000".toList
      = "ACME-2025-O0I1O0I1-000" ∧
    generate_product_key (some "Acme") 2025 [] "O0I1O0I1".toList "111".toList
      = "ACME-2025-O0I1O0I1-111" ∧
    generate_product_key (some "Acme") 2025 [] "O0I1O0I1".toList "000".toList ≠
      generate_product_key (some "Acme") 2025 [] "O0I1O0I1".toList "111".toList ∧
    '0' ∈ "ACME-2025-O0I1O0I1-000".toList := by
  decide

/-- C8 amended.  Every generated product key is four dash-separated parts: a
4-character prefix built from the company name padded with random uppercase
letters, the 4-digit year, an 8-character random block and a 3-character random
suffix, both drawn from the full `A–Z0–9` alphabet (which contains `0`, `O`,
`1` and `I`); the suffix is the independent draw `tailDraw`, not a function of
the first three parts. -/
theorem c8_product_key_shape (name : String) (year : Nat)
    (padDraw blockDraw tailDraw : List Char)
    (hpad : padDraw.length
      = 4 - (((name.toList.map Char.toUpper).filter Char.isAlphanum).take 4).length)
    (hblock : blockDraw.length = 8) (htail : tailDraw.length = 3) :
    generate_product_key (some name) year padDraw blockDraw tailDraw =
      String.mk ((((name.toList.map Char.toUpper).filter Char.isAlphanum).take 4) ++ padDraw)
        ++ "-" ++ toString year ++ "-" ++ String.mk blockDraw ++ "-" ++ String.mk tailDraw ∧
    ((((name.toList.map Char.toUpper).filter Char.isAlphanum).take 4) ++ padDraw).length = 4 ∧
    blockDraw.length = 8 ∧ tailDraw.length = 3 ∧
    '0' ∈ product_key_alphabet ∧ 'O' ∈ product_key_alphabet ∧
    '1' ∈ product_key_alphabet ∧ 'I' ∈ product_key_alphabet := by
  have hmem : '0' ∈ product_key_alphabet ∧ 'O' ∈ product_key_alphabet ∧
      '1' ∈ product_key_alphabet ∧ 'I' ∈ product_key_alphabet := by decide
  have hlt : (((name.toList.map Char.toUpper).filter Char.isAlphanum).take 4).length
      = min 4 ((name.toList.map Char.toUpper).filter Char.isAlphanum).length :=
    List.length_take 4 _
  by_cases h : ((name.toList.map Char.toUpper).filter Char.isAlphanum).length < 4
  · have h2 : ((name.data.map Char.toUpper).filter Char.isAlphanum).length < 4 := h
    exact ⟨by simp [generate_product_key, h2],
           by rw [List.length_append, hpad]; omega,
           hblock, htail, hmem.1, hmem.2.1, hmem.2.2.1, hmem.2.2.2⟩
  · have h2 : ¬ ((name.data.map Char.toUpper).filter Char.isAlphanum).length < 4 := h
    have hp0 : padDraw = [] := List.length_eq_zero.mp (by omega)
    exact ⟨by simp [generate_product_key, h2, hp0],
           by rw [List.length_append, hpad]; omega,
           hblock, htail, hmem.1, hmem.2.1, hmem.2.2.1, hmem.2.2.2⟩

/-- C8 witness: a concrete draw for company `Acme` with padding `[]`, block
`O0I1O0I1` and suffix `000`. -/
theorem c8_witness :
    ([] : List Char).length
      = 4 - ((("Acme".toList.map Char.toUpper).filter Char.isAlphanum).take 4).length ∧
    ("O0I1O0I1".toList).length = 8 ∧ ("000".toList).length = 3 ∧
    generate_product_key (some "Acme") 2025 [] "O0I1O0I1".toList "000".toList =
      String.mk (((("Acme".toList.map Char.toUpper).filter Char.isAlphanum).take 4) ++ [])
        ++ "-" ++ toString 2025 ++ "-" ++ String.mk "O0I1O0I1".toList
        ++ "-" ++ String.mk "000".toList :=
  ⟨by decide, by decide, by decide,
   (c8_product_key_shape "Acme" 2025 [] "O0I1O0I1".toList "000".toList
      (by decide) (by decide) (by decide)).1⟩

/-- C9.  The validation endpoint never reads the certificate's `signature`,
`signature_timestamp` or `security` fields: two requests differing only in
those fields receive identical responses, and — for a registered, non-revoked
machine with matching fingerprint and unexpired certificate — a certificate
with its signature removed is still reported `valid:true` with reason `ok`. -/
theorem c9_validation_ignores_signature_and_security (db : ServerDB) (now : Int)
    (c : Certificate) (fp : String) (m : MachineRow)
    (s1 s2 : Option SymData) (t1 t2 : Option Int) (sec1 sec2 : SecurityBlock)
    (hfp : c.machine.machine_fingerprint = fp) (hne : fp ≠ "")
    (hm : get_machine_by_fingerprint db fp = some m) (hrev : m.status ≠ "revoked")
    (hvu : now < c.validity.valid_until) :
    validate_certificate db now
        ⟨{ c with signature := s1, signature_timestamp := t1, security := sec1 }, fp, none, none⟩
      = validate_certificate db now
        ⟨{ c with signature := s2, signature_timestamp := t2, security := sec2 }, fp, none, none⟩ ∧
    (validate_certificate db now
        ⟨{ c with signature := none, signature_timestamp := none, security := sec1 },
         fp, none, none⟩).1.valid = true ∧
    (validate_certificate db now
        ⟨{ c with signature := none, signature_timestamp := none, security := sec1 },
         fp, none, none⟩).1.reason = "ok" := by
  refine ⟨rfl, ?_, ?_⟩ <;>
    rw [validate_ok_eq db now
      { c with signature := none, signature_timestamp := none, security := sec1 }
      fp m hfp hne hm hrev (le_of_lt hvu)]

/-- C9 witness: the pro certificate with its signature stripped (and a second
copy with a tampered signature and emptied security block) validated well
inside its validity window. -/
theorem c9_witness :
    certPro.machine.machine_fingerprint = fp1 ∧ fp1 ≠ "" ∧
    get_machine_by_fingerprint dbV fp1 = some machineRow1 ∧
    machineRow1.status ≠ "revoked" ∧ (1000 : Int) < certPro.validity.valid_until ∧
    validate_certificate dbV 1000
        ⟨{ certPro with
            signature := certPro.signature,
            signature_timestamp := certPro.signature_timestamp,
            security := certPro.security }, fp1, none, none⟩
      = validate_certificate dbV 1000
        ⟨{ certPro with
            signature := some (.str "tampered"),
            signature_timestamp := none,
            security := ⟨"", "", "", "", none, none, none⟩ }, fp1, none, none⟩ ∧
    (validate_certificate dbV 1000
        ⟨{ certPro with
            signature := none,
            signature_timestamp := none,
            security := certPro.security }, fp1, none, none⟩).1.valid = true ∧
    (validate_certificate dbV 1000
        ⟨{ certPro with
            signature := none,
            signature_timestamp := none,
            security := certPro.security }, fp1, none, none⟩).1.reason = "ok" :=
  ⟨by decide, by decide, by decide, by decide, by decide,
   (c9_validation_ignores_signature_and_security dbV 1000 certPro fp1 machineRow1
      certPro.signature (some (.str "tampered")) certPro.signature_timestamp none
      certPro.security ⟨"", "", "", "", none, none, none⟩
      (by decide) (by decide) (by decide) (by decide) (by decide)).1,
   (c9_validation_ignores_signature_and_security dbV 1000 certPro fp1 machineRow1
      certPro.signature (some (.str "tampered")) certPro.signature_timestamp none
      certPro.security ⟨"", "", "", "", none, none, none⟩
      (by decide) (by decide) (by decide) (by decide) (by decide)).2.1,
   (c9_validation_ignores_signature_and_security dbV 1000 certPro fp1 machineRow1
      certPro.signature (some (.str "tampered")) certPro.signature_timestamp none
      certPro.security ⟨"", "", "", "", none, none, none⟩
      (by decide) (by decide) (by decide) (by decide) (by decide)).2.2⟩

/-- C10.  Symmetric sealing round-trips: `decrypt_file` inverts `encrypt_file`
under the same key (for every data, key and nonce), and `decrypt_credentials`
applied with the machine fingerprint to the blob produced by
`generate_docker_credentials` recovers the original
`{registry, username, token, generated_at}` credentials object. -/
theorem c10_seal_roundtrip :
    (∀ (data key nonce : SymData),
       decrypt_file (encrypt_file data key nonce) key = some data) ∧
    (∀ (env : Env) (machine_fingerprint : String) (creds : DockerCredentials) (env' : Env),
       generate_docker_credentials env machine_fingerprint = some (creds, env') →
       decrypt_credentials creds.encrypted_credentials machine_fingerprint
         = some (credentialsJson env.docker_pat env.now)) := by
  constructor
  · intro data key nonce
    simp [decrypt_file, encrypt_file, noncePrefixConcat, aesgcmEncrypt, splitNonce12,
          aesgcmDecrypt, listD]
  · intro env machine_fingerprint creds env' h
    unfold generate_docker_credentials at h
    by_cases hp : env.docker_pat = ""
    · simp [hp] at h
    · simp [hp] at h
      obtain ⟨hc, he⟩ := h
      subst hc
      simp [decrypt_credentials, encrypt_data, b64decodeD, b64encodeD, noncePrefixConcat,
            aesgcmEncrypt, splitNonce12, aesgcmDecrypt, listD]

/-- C10 witness: a concrete file round-trip and the concrete credential blob
produced in `env0` for `fp1`. -/
theorem c10_witness :
    decrypt_file (encrypt_file (.str "certificate-bytes") (.str fp1) (tokenBytes12 3)) (.str fp1)
      = some (.str "certificate-bytes") ∧
    generate_docker_credentials env0 fp1 =
      some (⟨encrypt_data (credentialsJson env0.docker_pat env0.now) (.str fp1) (tokenBytes12 0),
             "AES-256-GCM", "SHA256(machine_fingerprint)"⟩,
            ⟨0, 1, 1, "dckr_pat_fixture"⟩) ∧
    decrypt_credentials
        (encrypt_data (credentialsJson env0.docker_pat env0.now) (.str fp1) (tokenBytes12 0)) fp1
      = some (credentialsJson env0.docker_pat env0.now) :=
  ⟨c10_seal_roundtrip.1 (.str "certificate-bytes") (.str fp1) (tokenBytes12 3),
   by decide,
   c10_seal_roundtrip.2 env0 fp1
     ⟨encrypt_data (credentialsJson env0.docker_pat env0.now) (.str fp1) (tokenBytes12 0),
      "AES-256-GCM", "SHA256(machine_fingerprint)"⟩
     ⟨0, 1, 1, "dckr_pat_fixture"⟩ (by decide)⟩

end LicensePOC
